import Mathlib

/-!
Verification of the SMCALC scoring engine (src/SMCALC.py).

The engine consists of seven KPI normalizer functions and one weighted
aggregator, all pure arithmetic over floats that may be absent (Python
`None`).  We embed numbers as exact rationals (ℚ) and absent values as
`Option ℚ`.  The Python dictionary of KPI results is embedded twice: as
`String → Option ℚ` for numeric-valued dictionaries (`dict.get(k, 0)`
becomes `(r k).getD 0`), and as `String → Option (Option ℚ)` when a
present key may store `None` — as the caller does at src/SMCALC.py line
305 — so that the TypeError raised by `None * weight` is representable
(`dict_get`, `cmul`, `checked_final_performance`).

Each `calculate_*` definition below is a direct transcription of the
corresponding Python function.  The `checked_*` normalizer variants
reproduce the same code but make every division a fallible operation
(`cdiv`), so that reachability of Python's ZeroDivisionError path can be
stated: the functions always return `Except.ok`.
-/

/-- Embedding of `calculate_sales_performance` (src/SMCALC.py lines 11-18):
returns 0.0 when the forecast is absent or zero or the actual is absent,
otherwise `min(actual / forecast, 1.0)`. -/
def calculate_sales_performance (actual_sales forecast_sales : Option ℚ) : ℚ :=
  match forecast_sales with
  | none => 0.0
  | some f =>
    if f = 0 then 0.0
    else
      match actual_sales with
      | none => 0.0
      | some a => min (a / f) 1.0

/-- Embedding of `calculate_wastage_performance` (src/SMCALC.py lines 20-43).
The local `wastage_percentage` is computed exactly as in the source (guarded
division by `actual_sales`) and, as in the source, never used afterwards. -/
def calculate_wastage_performance
    (actual_wastage actual_sales wastage_target_amount : Option ℚ) : ℚ :=
  match actual_wastage, actual_sales, wastage_target_amount with
  | some aw, some s, some t =>
    let wastage_percentage : ℚ := if s ≠ 0 then aw / s else 0
    if aw ≤ t then 1.0
    else if t = 0 then 0.0
    else if aw ≥ t * 1.2 then 0.0
    else
      let denominator := t * 20
      if denominator = 0 then 0.0
      else max 0.0 (min (1.0 - ((aw - t) * (100 / denominator))) 1.0)
  | _, _, _ => 0.0

/-- Embedding of `calculate_opex_performance` (src/SMCALC.py lines 45-72). -/
def calculate_opex_performance
    (actual_opex target_opex actual_sales : Option ℚ) : ℚ :=
  match actual_opex, target_opex, actual_sales with
  | some ao, some tgt, some s =>
    if s = 0 then 0.0
    else
      let opex_target_percentage := tgt / s
      let actual_opex_percentage := ao / s
      if actual_opex_percentage ≤ opex_target_percentage then 1.0
      else if opex_target_percentage = 0 then 0.0
      else if actual_opex_percentage ≥ opex_target_percentage * 1.2 then 0.0
      else
        let denominator := opex_target_percentage * 20
        if denominator = 0 then 0.0
        else
          max 0.0
            (min (1.0 - ((actual_opex_percentage - opex_target_percentage) *
              (100 / denominator))) 1.0)
  | _, _, _ => 0.0

/-- Embedding of `calculate_turnover_performance` (src/SMCALC.py lines 74-91). -/
def calculate_turnover_performance
    (actual_separations target_separations : Option ℚ) : ℚ :=
  match actual_separations, target_separations with
  | some a, some t =>
    if a ≤ t then 1.0
    else if t = 0 then 0.0
    else if a ≥ t * 1.2 then 0.0
    else max 0.0 (min (1.0 - ((a / t) - 1.0) * 5.0) 1.0)
  | _, _ => 0.0

/-- Embedding of `calculate_mystery_shopper_performance`
(src/SMCALC.py lines 93-100). -/
def calculate_mystery_shopper_performance (actual_value : Option ℚ) : ℚ :=
  match actual_value with
  | none => 0.0
  | some v => min (v / 100.0) 1.0

/-- Embedding of `calculate_excellence_performance`
(src/SMCALC.py lines 102-109). -/
def calculate_excellence_performance (actual_value : Option ℚ) : ℚ :=
  match actual_value with
  | none => 0.0
  | some v => min (v / 100.0) 1.0

/-- Embedding of `calculate_behavioural_performance`
(src/SMCALC.py lines 111-118). -/
def calculate_behavioural_performance (actual_value : Option ℚ) : ℚ :=
  match actual_value with
  | none => 0.0
  | some v => min (v / 5.0) 1.0

/-- Embedding of `calculate_final_performance` (src/SMCALC.py lines 120-138).
The Python dictionary is embedded as `String → Option ℚ`; `kpi_results.get(k, 0)`
becomes `(kpi_results k).getD 0`. -/
def calculate_final_performance (kpi_results : String → Option ℚ) : ℚ :=
  let sales_perf := (kpi_results "Sales").getD 0 * 0.30
  let wastage_perf := (kpi_results "Wastage").getD 0 * 0.30
  let opex_perf := (kpi_results "OPEX").getD 0 * 0.20
  let turnover_perf := (kpi_results "Turnover").getD 0 * 0.20
  let excellence_perf := (kpi_results "Excellence check").getD 0 * 0.20
  let mystery_shopper_perf := (kpi_results "Mystery shopper").getD 0 * 0.20
  let behavioural_perf := (kpi_results "Behaviour").getD 0 * 0.10
  ((sales_perf + wastage_perf + opex_perf + turnover_perf) * 0.5) +
    excellence_perf + mystery_shopper_perf + behavioural_perf

/-- Division as a fallible operation: mirrors Python float division, which
raises ZeroDivisionError on a zero divisor. -/
def cdiv (a b : ℚ) : Except String ℚ :=
  if b = 0 then Except.error "ZeroDivisionError" else Except.ok (a / b)

/-- The body of `calculate_sales_performance` with its division made
fallible, i.e. the code inside the try block without the except handler. -/
def checked_sales_performance
    (actual_sales forecast_sales : Option ℚ) : Except String ℚ :=
  match forecast_sales with
  | none => Except.ok 0.0
  | some f =>
    if f = 0 then Except.ok 0.0
    else
      match actual_sales with
      | none => Except.ok 0.0
      | some a => do
        let result ← cdiv a f
        Except.ok (min result 1.0)

/-- The body of `calculate_wastage_performance` with every division made
fallible. -/
def checked_wastage_performance
    (actual_wastage actual_sales wastage_target_amount : Option ℚ) :
    Except String ℚ :=
  match actual_wastage, actual_sales, wastage_target_amount with
  | some aw, some s, some t => do
    let _wastage_percentage ← if s ≠ 0 then cdiv aw s else Except.ok 0
    if aw ≤ t then Except.ok 1.0
    else if t = 0 then Except.ok 0.0
    else if aw ≥ t * 1.2 then Except.ok 0.0
    else
      let denominator := t * 20
      if denominator = 0 then Except.ok 0.0
      else do
        let ratio ← cdiv 100 denominator
        Except.ok (max 0.0 (min (1.0 - ((aw - t) * ratio)) 1.0))
  | _, _, _ => Except.ok 0.0

/-- The body of `calculate_opex_performance` with every division made
fallible. -/
def checked_opex_performance
    (actual_opex target_opex actual_sales : Option ℚ) : Except String ℚ :=
  match actual_opex, target_opex, actual_sales with
  | some ao, some tgt, some s =>
    if s = 0 then Except.ok 0.0
    else do
      let opex_target_percentage ← cdiv tgt s
      let actual_opex_percentage ← cdiv ao s
      if actual_opex_percentage ≤ opex_target_percentage then Except.ok 1.0
      else if opex_target_percentage = 0 then Except.ok 0.0
      else if actual_opex_percentage ≥ opex_target_percentage * 1.2 then
        Except.ok 0.0
      else
        let denominator := opex_target_percentage * 20
        if denominator = 0 then Except.ok 0.0
        else do
          let ratio ← cdiv 100 denominator
          Except.ok
            (max 0.0
              (min (1.0 - ((actual_opex_percentage - opex_target_percentage) *
                ratio)) 1.0))
  | _, _, _ => Except.ok 0.0

/-- The body of `calculate_turnover_performance` with its division made
fallible. -/
def checked_turnover_performance
    (actual_separations target_separations : Option ℚ) : Except String ℚ :=
  match actual_separations, target_separations with
  | some a, some t =>
    if a ≤ t then Except.ok 1.0
    else if t = 0 then Except.ok 0.0
    else if a ≥ t * 1.2 then Except.ok 0.0
    else do
      let ratio ← cdiv a t
      Except.ok (max 0.0 (min (1.0 - (ratio - 1.0) * 5.0) 1.0))
  | _, _ => Except.ok 0.0

/-- The body of `calculate_mystery_shopper_performance` with its division
made fallible. -/
def checked_mystery_shopper_performance
    (actual_value : Option ℚ) : Except String ℚ :=
  match actual_value with
  | none => Except.ok 0.0
  | some v => do
    let result ← cdiv v 100.0
    Except.ok (min result 1.0)

/-- The body of `calculate_excellence_performance` with its division made
fallible. -/
def checked_excellence_performance
    (actual_value : Option ℚ) : Except String ℚ :=
  match actual_value with
  | none => Except.ok 0.0
  | some v => do
    let result ← cdiv v 100.0
    Except.ok (min result 1.0)

/-- The body of `calculate_behavioural_performance` with its division made
fallible. -/
def checked_behavioural_performance
    (actual_value : Option ℚ) : Except String ℚ :=
  match actual_value with
  | none => Except.ok 0.0
  | some v => do
    let result ← cdiv v 5.0
    Except.ok (min result 1.0)

/-- Value produced by Python `kpi_results.get(k, 0)` over a dictionary that
may store the absent result `None` under a present key: the outer `Option`
is key presence, the inner `Option` is the stored value with `none` for
Python `None`.  A missing key yields the numeric default `0`; a present key
yields its stored value unchanged, which may be `none`. -/
def dict_get (kpi_results : String → Option (Option ℚ)) (k : String) :
    Option ℚ :=
  match kpi_results k with
  | none => some 0
  | some v => v

/-- Multiplication of a possibly-`None` value by a numeric weight: Python
raises TypeError on `None * w`. -/
def cmul (x : Option ℚ) (w : ℚ) : Except String ℚ :=
  match x with
  | some v => Except.ok (v * w)
  | none => Except.error "TypeError"

/-- Embedding of `calculate_final_performance` (src/SMCALC.py lines 120-138)
over dictionaries that may store the absent result `None` under a present
key, as the caller builds at src/SMCALC.py line 305: each
`kpi_results.get(k, 0) * weight` of the source is a `dict_get` followed by a
fallible multiplication. -/
def checked_final_performance
    (kpi_results : String → Option (Option ℚ)) : Except String ℚ := do
  let sales_perf ← cmul (dict_get kpi_results "Sales") 0.30
  let wastage_perf ← cmul (dict_get kpi_results "Wastage") 0.30
  let opex_perf ← cmul (dict_get kpi_results "OPEX") 0.20
  let turnover_perf ← cmul (dict_get kpi_results "Turnover") 0.20
  let excellence_perf ← cmul (dict_get kpi_results "Excellence check") 0.20
  let mystery_shopper_perf ← cmul (dict_get kpi_results "Mystery shopper") 0.20
  let behavioural_perf ← cmul (dict_get kpi_results "Behaviour") 0.10
  Except.ok (((sales_perf + wastage_perf + opex_perf + turnover_perf) * 0.5) +
    excellence_perf + mystery_shopper_perf + behavioural_perf)

/-- Formula of the aggregator on the numeric-valued dictionary model, in
which every stored KPI result is a number and only whole keys can be
missing (contributing 0.0 via `getD 0`). -/
theorem final_performance_formula (kpi_results : String → Option ℚ) :
    calculate_final_performance kpi_results =
      (((kpi_results "Sales").getD 0 * 0.30 +
        (kpi_results "Wastage").getD 0 * 0.30 +
        (kpi_results "OPEX").getD 0 * 0.20 +
        (kpi_results "Turnover").getD 0 * 0.20) * 0.5) +
        (kpi_results "Excellence check").getD 0 * 0.20 +
        (kpi_results "Mystery shopper").getD 0 * 0.20 +
        (kpi_results "Behaviour").getD 0 * 0.10 := by
  rfl

/-- C9: the Excellence check normalizer and the Mystery shopper normalizer
return exactly the same result on every input, absent or numeric. -/
theorem excellence_eq_mystery_shopper (x : Option ℚ) :
    calculate_excellence_performance x =
      calculate_mystery_shopper_performance x := by
  rfl

/-- C10: the Wastage normalizer's result does not depend on the value of its
`actual_sales` argument beyond its presence: any two present sales values
give the same score. -/
theorem wastage_ignores_sales_value (a t s1 s2 : ℚ) :
    calculate_wastage_performance (some a) (some s1) (some t) =
      calculate_wastage_performance (some a) (some s2) (some t) := by
  rfl

/-- Clamping with `max 0.0 (min q 1.0)` never goes below zero. -/
theorem clamp01_nonneg (q : ℚ) : (0.0 : ℚ) ≤ max 0.0 (min q 1.0) :=
  le_max_left _ _

/-- Clamping with `max 0.0 (min q 1.0)` never exceeds one. -/
theorem clamp01_le_one (q : ℚ) : max 0.0 (min q 1.0) ≤ (1.0 : ℚ) :=
  max_le (by norm_num) (min_le_right _ _)

/-- Branch structure of the Wastage normalizer on fully present inputs: the
internal `denominator = 0` guard is unreachable because it sits under the
`t ≠ 0` branch. -/
theorem wastage_eq_spec (a s t : ℚ) :
    calculate_wastage_performance (some a) (some s) (some t) =
      if a ≤ t then 1.0
      else if t = 0 then 0.0
      else if a ≥ t * 1.2 then 0.0
      else max 0.0 (min (1.0 - ((a - t) * (100 / (t * 20)))) 1.0) := by
  simp only [calculate_wastage_performance]
  split_ifs with h1 h2 h3 h4 <;> try rfl
  exact absurd (by linarith : t = 0) h2

/-- The Wastage normalizer returns 0.0 whenever any input is absent. -/
theorem wastage_absent :
    (∀ y z : Option ℚ, calculate_wastage_performance none y z = 0.0) ∧
    (∀ x z : Option ℚ, calculate_wastage_performance x none z = 0.0) ∧
    (∀ x y : Option ℚ, calculate_wastage_performance x y none = 0.0) := by
  refine ⟨fun y z => ?_, fun x z => ?_, fun x y => ?_⟩
  · cases y <;> cases z <;> rfl
  · cases x <;> cases z <;> rfl
  · cases x <;> cases y <;> rfl

/-- The Wastage normalizer stays in [0, 1] on all inputs. -/
theorem wastage_bounds (x y z : Option ℚ) :
    0 ≤ calculate_wastage_performance x y z ∧
      calculate_wastage_performance x y z ≤ 1 := by
  cases x with
  | none => exact ⟨by norm_num [calculate_wastage_performance], by
      norm_num [calculate_wastage_performance]⟩
  | some a =>
    cases y with
    | none => exact ⟨by norm_num [calculate_wastage_performance], by
        norm_num [calculate_wastage_performance]⟩
    | some s =>
      cases z with
      | none => exact ⟨by norm_num [calculate_wastage_performance], by
          norm_num [calculate_wastage_performance]⟩
      | some t =>
        rw [wastage_eq_spec]
        split_ifs with h1 h2 h3
        · norm_num
        · norm_num
        · norm_num
        · constructor
          · calc (0:ℚ) ≤ 0.0 := by norm_num
              _ ≤ _ := clamp01_nonneg _
          · calc max 0.0 (min (1.0 - ((a - t) * (100 / (t * 20)))) 1.0)
                ≤ (1.0:ℚ) := clamp01_le_one _
              _ ≤ 1 := by norm_num

/-- Branch structure of the Turnover normalizer on fully present inputs. -/
theorem turnover_eq_spec (a t : ℚ) :
    calculate_turnover_performance (some a) (some t) =
      if a ≤ t then 1.0
      else if t = 0 then 0.0
      else if a ≥ t * 1.2 then 0.0
      else max 0.0 (min (1.0 - ((a / t) - 1.0) * 5.0) 1.0) := by
  rfl

/-- The Turnover normalizer stays in [0, 1] on all inputs. -/
theorem turnover_bounds (x y : Option ℚ) :
    0 ≤ calculate_turnover_performance x y ∧
      calculate_turnover_performance x y ≤ 1 := by
  cases x with
  | none => exact ⟨by norm_num [calculate_turnover_performance], by
      norm_num [calculate_turnover_performance]⟩
  | some a =>
    cases y with
    | none => exact ⟨by norm_num [calculate_turnover_performance], by
        norm_num [calculate_turnover_performance]⟩
    | some t =>
      rw [turnover_eq_spec]
      split_ifs with h1 h2 h3
      · norm_num
      · norm_num
      · norm_num
      · refine ⟨le_trans (by norm_num) (clamp01_nonneg _), ?_⟩
        exact le_trans (clamp01_le_one _) (by norm_num)

/-- On present inputs with nonzero sales, the OPEX normalizer agrees with the
Wastage normalizer applied to the percentage forms `a / s` and `t / s`. -/
theorem opex_eq_wastage_div (a t s : ℚ) (hs : s ≠ 0) :
    calculate_opex_performance (some a) (some t) (some s) =
      calculate_wastage_performance (some (a / s)) (some s) (some (t / s)) := by
  simp only [calculate_opex_performance, calculate_wastage_performance,
    if_neg hs]

/-- The OPEX normalizer stays in [0, 1] on all inputs. -/
theorem opex_bounds (x y z : Option ℚ) :
    0 ≤ calculate_opex_performance x y z ∧
      calculate_opex_performance x y z ≤ 1 := by
  cases x with
  | none => exact ⟨by norm_num [calculate_opex_performance], by
      norm_num [calculate_opex_performance]⟩
  | some a =>
    cases y with
    | none => exact ⟨by norm_num [calculate_opex_performance], by
        norm_num [calculate_opex_performance]⟩
    | some t =>
      cases z with
      | none => exact ⟨by norm_num [calculate_opex_performance], by
          norm_num [calculate_opex_performance]⟩
      | some s =>
        by_cases hs : s = 0
        · subst hs
          exact ⟨by norm_num [calculate_opex_performance], by
            norm_num [calculate_opex_performance]⟩
        · rw [opex_eq_wastage_div a t s hs]
          exact wastage_bounds _ _ _

/-- The Sales normalizer never exceeds 1, and is nonnegative whenever both
present inputs are nonnegative. -/
theorem sales_bounds (a f : ℚ) (ha : 0 ≤ a) (hf : 0 ≤ f) :
    0 ≤ calculate_sales_performance (some a) (some f) ∧
      calculate_sales_performance (some a) (some f) ≤ 1 := by
  simp only [calculate_sales_performance]
  split_ifs with h
  · norm_num
  · have hfpos : 0 < f := lt_of_le_of_ne hf (Ne.symm h)
    constructor
    · exact le_min (div_nonneg ha hf) (by norm_num)
    · exact le_trans (min_le_right _ _) (by norm_num)

/-- The Sales normalizer never exceeds 1 for any present inputs. -/
theorem sales_le_one (a f : ℚ) :
    calculate_sales_performance (some a) (some f) ≤ 1 := by
  simp only [calculate_sales_performance]
  split_ifs with h
  · norm_num
  · exact le_trans (min_le_right _ _) (by norm_num)

/-- Division-by-a-positive-constant normalizers (Mystery shopper, Excellence
check, Behaviour) stay in [0, 1] when the input is nonnegative. -/
theorem min_div_bounds (v c : ℚ) (hv : 0 ≤ v) (hc : 0 < c) :
    0 ≤ min (v / c) 1.0 ∧ min (v / c) 1.0 ≤ 1 :=
  ⟨le_min (div_nonneg hv hc.le) (by norm_num),
    le_trans (min_le_right _ _) (by norm_num)⟩


/-- The Wastage normalizer is monotone non-increasing in the actual wastage
amount for a fixed positive target and any fixed present sales value. -/
theorem wastage_antitone_aux (t s a1 a2 : ℚ) (ht : 0 < t) (h12 : a1 ≤ a2) :
    calculate_wastage_performance (some a2) (some s) (some t) ≤
      calculate_wastage_performance (some a1) (some s) (some t) := by
  rw [wastage_eq_spec, wastage_eq_spec]
  have ht0 : ¬t = 0 := ne_of_gt ht
  by_cases hA1 : a1 ≤ t
  · rw [if_pos hA1]
    by_cases hA2 : a2 ≤ t
    · rw [if_pos hA2]
    · rw [if_neg hA2, if_neg ht0]
      by_cases hW2 : a2 ≥ t * 1.2
      · rw [if_pos hW2]; norm_num
      · rw [if_neg hW2]; exact clamp01_le_one _
  · have hA2 : ¬a2 ≤ t := fun h => hA1 (le_trans h12 h)
    rw [if_neg hA1, if_neg hA2, if_neg ht0, if_neg ht0]
    by_cases hW1 : a1 ≥ t * 1.2
    · have hW2 : a2 ≥ t * 1.2 := le_trans hW1 h12
      rw [if_pos hW1, if_pos hW2]
    · rw [if_neg hW1]
      by_cases hW2 : a2 ≥ t * 1.2
      · rw [if_pos hW2]
        exact le_trans (by norm_num) (clamp01_nonneg _)
      · rw [if_neg hW2]
        have hk : (0:ℚ) ≤ 100 / (t * 20) := by positivity
        have hmul : (a1 - t) * (100 / (t * 20)) ≤ (a2 - t) * (100 / (t * 20)) :=
          mul_le_mul_of_nonneg_right (by linarith) hk
        exact max_le_max (le_refl _) (min_le_min (by linarith) (le_refl _))

/-- Checked division succeeds exactly when the divisor is nonzero. -/
theorem cdiv_ok (a b : ℚ) (hb : b ≠ 0) : cdiv a b = Except.ok (a / b) :=
  if_neg hb

/-- Binding a successful `Except` value just applies the continuation. -/
theorem ok_bind {α β : Type} (x : α) (f : α → Except String β) :
    (Except.ok x >>= f : Except String β) = f x := rfl

/-- The checked Sales normalizer never reaches the division-by-zero error. -/
theorem checked_sales_ok (x y : Option ℚ) :
    checked_sales_performance x y =
      Except.ok (calculate_sales_performance x y) := by
  cases y with
  | none => rfl
  | some f =>
    cases x with
    | none =>
      simp only [checked_sales_performance, calculate_sales_performance]
      split_ifs <;> rfl
    | some a =>
      simp only [checked_sales_performance, calculate_sales_performance]
      split_ifs with h1
      · rfl
      · rw [cdiv_ok a f h1, ok_bind]


/-- The checked Wastage normalizer never reaches the division-by-zero
error. -/
theorem checked_wastage_ok (x y z : Option ℚ) :
    checked_wastage_performance x y z =
      Except.ok (calculate_wastage_performance x y z) := by
  cases x with
  | none => cases y <;> cases z <;> rfl
  | some aw =>
    cases y with
    | none => cases z <;> rfl
    | some s =>
      cases z with
      | none => rfl
      | some t =>
        simp only [checked_wastage_performance, calculate_wastage_performance]
        by_cases hs : s ≠ 0
        · simp only [if_pos hs, cdiv_ok aw s hs, ok_bind]
          split_ifs with h1 h2 h3 h4
          · rfl
          · rfl
          · rfl
          · rfl
          · simp only [cdiv_ok 100 (t * 20) h4, ok_bind]
        · simp only [if_neg hs, ok_bind]
          split_ifs with h1 h2 h3 h4
          · rfl
          · rfl
          · rfl
          · rfl
          · simp only [cdiv_ok 100 (t * 20) h4, ok_bind]

/-- The checked OPEX normalizer never reaches the division-by-zero error. -/
theorem checked_opex_ok (x y z : Option ℚ) :
    checked_opex_performance x y z =
      Except.ok (calculate_opex_performance x y z) := by
  cases x with
  | none => cases y <;> cases z <;> rfl
  | some ao =>
    cases y with
    | none => cases z <;> rfl
    | some tgt =>
      cases z with
      | none => rfl
      | some s =>
        simp only [checked_opex_performance, calculate_opex_performance]
        by_cases h1 : s = 0
        · simp only [if_pos h1]
        · simp only [if_neg h1, cdiv_ok tgt s h1, cdiv_ok ao s h1, ok_bind]
          split_ifs with h2 h3 h4 h5
          · rfl
          · rfl
          · rfl
          · rfl
          · simp only [cdiv_ok 100 (tgt / s * 20) h5, ok_bind]

/-- The checked Turnover normalizer never reaches the division-by-zero
error. -/
theorem checked_turnover_ok (x y : Option ℚ) :
    checked_turnover_performance x y =
      Except.ok (calculate_turnover_performance x y) := by
  cases x with
  | none => cases y <;> rfl
  | some a =>
    cases y with
    | none => rfl
    | some t =>
      simp only [checked_turnover_performance, calculate_turnover_performance]
      split_ifs with h1 h2 h3
      · rfl
      · rfl
      · rfl
      · simp only [cdiv_ok a t h2, ok_bind]

/-- The checked Mystery shopper normalizer never reaches the
division-by-zero error. -/
theorem checked_mystery_shopper_ok (x : Option ℚ) :
    checked_mystery_shopper_performance x =
      Except.ok (calculate_mystery_shopper_performance x) := by
  cases x with
  | none => rfl
  | some v =>
    simp only [checked_mystery_shopper_performance,
      calculate_mystery_shopper_performance,
      cdiv_ok v 100.0 (by norm_num), ok_bind]

/-- The checked Excellence check normalizer never reaches the
division-by-zero error. -/
theorem checked_excellence_ok (x : Option ℚ) :
    checked_excellence_performance x =
      Except.ok (calculate_excellence_performance x) := by
  cases x with
  | none => rfl
  | some v =>
    simp only [checked_excellence_performance,
      calculate_excellence_performance,
      cdiv_ok v 100.0 (by norm_num), ok_bind]

/-- The checked Behaviour normalizer never reaches the division-by-zero
error. -/
theorem checked_behavioural_ok (x : Option ℚ) :
    checked_behavioural_performance x =
      Except.ok (calculate_behavioural_performance x) := by
  cases x with
  | none => rfl
  | some v =>
    simp only [checked_behavioural_performance,
      calculate_behavioural_performance,
      cdiv_ok v 5.0 (by norm_num), ok_bind]

/-- C1 (counterexample): the claim that every normalizer maps every numeric
input, including negative values, into [0.0, 1.0] is false: the Sales
normalizer returns -1 on actual -1 against forecast 1. -/
theorem sales_negative_counterexample :
    calculate_sales_performance (some (-1)) (some 1) < 0 := by
  norm_num [calculate_sales_performance]

/-- C1 (amended): the Wastage, OPEX and Turnover normalizers map every
numeric input into [0.0, 1.0]; the Sales, Mystery shopper, Excellence check
and Behaviour normalizers do so whenever their numeric inputs are
nonnegative, and never exceed 1.0 even on negative inputs. -/
theorem normalizers_in_unit_interval
    (a f m e b w1 w2 w3 o1 o2 o3 t1 t2 n1 n2 n3 n4 n5 : ℚ)
    (ha : 0 ≤ a) (hf : 0 ≤ f) (hm : 0 ≤ m) (he : 0 ≤ e) (hb : 0 ≤ b) :
    (0 ≤ calculate_sales_performance (some a) (some f) ∧
      calculate_sales_performance (some a) (some f) ≤ 1) ∧
    (0 ≤ calculate_mystery_shopper_performance (some m) ∧
      calculate_mystery_shopper_performance (some m) ≤ 1) ∧
    (0 ≤ calculate_excellence_performance (some e) ∧
      calculate_excellence_performance (some e) ≤ 1) ∧
    (0 ≤ calculate_behavioural_performance (some b) ∧
      calculate_behavioural_performance (some b) ≤ 1) ∧
    (0 ≤ calculate_wastage_performance (some w1) (some w2) (some w3) ∧
      calculate_wastage_performance (some w1) (some w2) (some w3) ≤ 1) ∧
    (0 ≤ calculate_opex_performance (some o1) (some o2) (some o3) ∧
      calculate_opex_performance (some o1) (some o2) (some o3) ≤ 1) ∧
    (0 ≤ calculate_turnover_performance (some t1) (some t2) ∧
      calculate_turnover_performance (some t1) (some t2) ≤ 1) ∧
    calculate_sales_performance (some n1) (some n2) ≤ 1 ∧
    calculate_mystery_shopper_performance (some n3) ≤ 1 ∧
    calculate_excellence_performance (some n4) ≤ 1 ∧
    calculate_behavioural_performance (some n5) ≤ 1 := by
  refine ⟨sales_bounds a f ha hf,
    min_div_bounds m 100.0 hm (by norm_num),
    min_div_bounds e 100.0 he (by norm_num),
    min_div_bounds b 5.0 hb (by norm_num),
    wastage_bounds _ _ _, opex_bounds _ _ _, turnover_bounds _ _,
    sales_le_one n1 n2,
    le_trans (min_le_right _ _) (by norm_num),
    le_trans (min_le_right _ _) (by norm_num),
    le_trans (min_le_right _ _) (by norm_num)⟩

/-- C1 (witness): concrete instantiation of the amended bound statement,
with negative inputs exercising the unconditional branches. -/
theorem normalizers_in_unit_interval_witness :
    (0 ≤ calculate_sales_performance (some 50) (some 100) ∧
      calculate_sales_performance (some 50) (some 100) ≤ 1) ∧
    (0 ≤ calculate_mystery_shopper_performance (some 60) ∧
      calculate_mystery_shopper_performance (some 60) ≤ 1) ∧
    (0 ≤ calculate_excellence_performance (some 70) ∧
      calculate_excellence_performance (some 70) ≤ 1) ∧
    (0 ≤ calculate_behavioural_performance (some 3) ∧
      calculate_behavioural_performance (some 3) ≤ 1) ∧
    (0 ≤ calculate_wastage_performance (some (-5)) (some 0) (some (-2)) ∧
      calculate_wastage_performance (some (-5)) (some 0) (some (-2)) ≤ 1) ∧
    (0 ≤ calculate_opex_performance (some (-1)) (some 0) (some (-3)) ∧
      calculate_opex_performance (some (-1)) (some 0) (some (-3)) ≤ 1) ∧
    (0 ≤ calculate_turnover_performance (some 6) (some 5) ∧
      calculate_turnover_performance (some 6) (some 5) ≤ 1) ∧
    calculate_sales_performance (some (-1)) (some 1) ≤ 1 ∧
    calculate_mystery_shopper_performance (some (-50)) ≤ 1 ∧
    calculate_excellence_performance (some 200) ≤ 1 ∧
    calculate_behavioural_performance (some (-7)) ≤ 1 :=
  normalizers_in_unit_interval 50 100 60 70 3 (-5) 0 (-2) (-1) 0 (-3) 6 5
    (-1) 1 (-50) 200 (-7)
    (by norm_num) (by norm_num) (by norm_num) (by norm_num) (by norm_num)

/-- C3: the Wastage normalizer returns 0.0 on any absent input, and on
present inputs follows exactly the best-case / zero-target / worst-case /
clamped-interpolation branch structure of the specification. -/
theorem wastage_branch_correct :
    (∀ y z : Option ℚ, calculate_wastage_performance none y z = 0.0) ∧
    (∀ x z : Option ℚ, calculate_wastage_performance x none z = 0.0) ∧
    (∀ x y : Option ℚ, calculate_wastage_performance x y none = 0.0) ∧
    (∀ a s t : ℚ,
      calculate_wastage_performance (some a) (some s) (some t) =
        if a ≤ t then 1.0
        else if t = 0 then 0.0
        else if a ≥ t * 1.2 then 0.0
        else max 0.0 (min (1.0 - ((a - t) * (100 / (t * 20)))) 1.0)) :=
  ⟨wastage_absent.1, wastage_absent.2.1, wastage_absent.2.2, wastage_eq_spec⟩

/-- C4: on present inputs the Turnover normalizer follows exactly the
best-case / zero-target / worst-case / clamped ratio-penalty branch
structure of the specification. -/
theorem turnover_branch_correct (a t : ℚ) :
    calculate_turnover_performance (some a) (some t) =
      if a ≤ t then 1.0
      else if t = 0 then 0.0
      else if a ≥ t * 1.2 then 0.0
      else max 0.0 (min (1.0 - ((a / t) - 1.0) * 5.0) 1.0) :=
  turnover_eq_spec a t

/-- C5: for present inputs with nonzero sales, the OPEX normalizer returns
exactly the Wastage policy applied to the percentage forms `a / s` and
`t / s`. -/
theorem opex_refines_wastage (a t s : ℚ) (hs : s ≠ 0) :
    calculate_opex_performance (some a) (some t) (some s) =
      calculate_wastage_performance (some (a / s)) (some s) (some (t / s)) :=
  opex_eq_wastage_div a t s hs

/-- C5 (witness): the refinement at the spec's own end-to-end numbers. -/
theorem opex_refines_wastage_witness :
    calculate_opex_performance (some 15000) (some 20000) (some 100000) =
      calculate_wastage_performance (some (15000 / 100000)) (some 100000)
        (some (20000 / 100000)) :=
  opex_refines_wastage 15000 20000 100000 (by norm_num)

/-- C6: for a fixed positive target, the Wastage normalizer (any fixed
present sales value) and the OPEX normalizer (fixed positive sales) are
monotone non-increasing in the actual value. -/
theorem wastage_opex_monotone (t sw so a1 a2 : ℚ)
    (ht : 0 < t) (hso : 0 < so) (h12 : a1 ≤ a2) :
    calculate_wastage_performance (some a2) (some sw) (some t) ≤
      calculate_wastage_performance (some a1) (some sw) (some t) ∧
    calculate_opex_performance (some a2) (some t) (some so) ≤
      calculate_opex_performance (some a1) (some t) (some so) := by
  refine ⟨wastage_antitone_aux t sw a1 a2 ht h12, ?_⟩
  have hso0 : so ≠ 0 := ne_of_gt hso
  rw [opex_eq_wastage_div a2 t so hso0, opex_eq_wastage_div a1 t so hso0]
  have hdiv : a1 / so ≤ a2 / so := by
    rw [div_eq_mul_inv, div_eq_mul_inv]
    exact mul_le_mul_of_nonneg_right h12 (inv_nonneg.mpr hso.le)
  exact wastage_antitone_aux (t / so) so (a1 / so) (a2 / so)
    (div_pos ht hso) hdiv

/-- C6 (witness): monotonicity at target 10 between actuals 10.5 and 11. -/
theorem wastage_opex_monotone_witness :
    calculate_wastage_performance (some 11) (some 100) (some 10) ≤
      calculate_wastage_performance (some (21 / 2)) (some 100) (some 10) ∧
    calculate_opex_performance (some 11) (some 10) (some 100) ≤
      calculate_opex_performance (some (21 / 2)) (some 10) (some 100) :=
  wastage_opex_monotone 10 100 100 (21 / 2) 11
    (by norm_num) (by norm_num) (by norm_num)

/-- C7: the aggregator returns 1.0 on all-ones KPI results, 0.0 on
all-zeros, and 0.15 = 0.30 * 0.5 when only Sales is 1.0, in exact
arithmetic. -/
theorem final_performance_point_values :
    calculate_final_performance (fun _ => some 1.0) = 1.0 ∧
    calculate_final_performance (fun _ => some 0.0) = 0.0 ∧
    calculate_final_performance
        (fun k => if k = "Sales" then some 1.0 else some 0.0) = 0.15 := by
  refine ⟨by norm_num [calculate_final_performance],
    by norm_num [calculate_final_performance], ?_⟩
  simp +decide only [calculate_final_performance]
  norm_num

/-- C8: every normalizer is total and its checked variant, in which each
division may fail, always returns `Except.ok` of the total result: Python's
ZeroDivisionError branch is unreachable in all seven normalizers. -/
theorem normalizers_total_no_error :
    (∀ x y : Option ℚ, checked_sales_performance x y =
        Except.ok (calculate_sales_performance x y)) ∧
    (∀ x y z : Option ℚ, checked_wastage_performance x y z =
        Except.ok (calculate_wastage_performance x y z)) ∧
    (∀ x y z : Option ℚ, checked_opex_performance x y z =
        Except.ok (calculate_opex_performance x y z)) ∧
    (∀ x y : Option ℚ, checked_turnover_performance x y =
        Except.ok (calculate_turnover_performance x y)) ∧
    (∀ x : Option ℚ, checked_mystery_shopper_performance x =
        Except.ok (calculate_mystery_shopper_performance x)) ∧
    (∀ x : Option ℚ, checked_excellence_performance x =
        Except.ok (calculate_excellence_performance x)) ∧
    (∀ x : Option ℚ, checked_behavioural_performance x =
        Except.ok (calculate_behavioural_performance x)) :=
  ⟨checked_sales_ok, checked_wastage_ok, checked_opex_ok,
    checked_turnover_ok, checked_mystery_shopper_ok,
    checked_excellence_ok, checked_behavioural_ok⟩

/-- Looking up a key whose stored value is not Python `None` and weighting
it succeeds, missing keys defaulting to 0. -/
theorem cmul_dict_get_ok (r : String → Option (Option ℚ)) (k : String)
    (w : ℚ) (hk : r k ≠ some none) :
    cmul (dict_get r k) w =
      Except.ok (((r k).getD (some 0)).getD 0 * w) := by
  cases hx : r k with
  | none => simp [cmul, dict_get, hx]
  | some v =>
    cases v with
    | none => exact absurd hx hk
    | some q => simp [cmul, dict_get, hx]

/-- On mappings whose present entries are all numeric, the fallible
aggregator succeeds and agrees with the numeric-dictionary model, whole
missing keys contributing 0. -/
theorem checked_final_performance_ok (r : String → Option (Option ℚ))
    (h : ∀ k, r k ≠ some none) :
    checked_final_performance r =
      Except.ok (calculate_final_performance
        (fun k => (r k).getD (some 0))) := by
  simp only [checked_final_performance, calculate_final_performance,
    cmul_dict_get_ok r "Sales" 0.30 (h "Sales"),
    cmul_dict_get_ok r "Wastage" 0.30 (h "Wastage"),
    cmul_dict_get_ok r "OPEX" 0.20 (h "OPEX"),
    cmul_dict_get_ok r "Turnover" 0.20 (h "Turnover"),
    cmul_dict_get_ok r "Excellence check" 0.20 (h "Excellence check"),
    cmul_dict_get_ok r "Mystery shopper" 0.20 (h "Mystery shopper"),
    cmul_dict_get_ok r "Behaviour" 0.10 (h "Behaviour"),
    ok_bind]

/-- C2: the claim fails on the code: on a mapping that stores the absent
result `None` under the present key "Sales" — exactly what the caller
builds at src/SMCALC.py line 305 when a KPI's inputs are missing — the
aggregator does not default the entry to 0.0 but raises TypeError at
`None * 0.30`, because `dict.get(k, 0)` only defaults missing keys. -/
theorem final_performance_fails_on_absent_value :
    checked_final_performance
        (fun k => if k = "Sales" then some none else none) =
      Except.error "TypeError" := by
  rfl
